import Mathlib

/-!
Verification of the EasyGUI edit-text widget interface
(`00-GUI_LIBRARY/widgets/gui_edittext.h`).

The header declares the color-index, vertical-align and horizontal-align
enumerations, the multiline flag bit, the `GUI_EDITTEXT_t` state structure,
and five API functions (`Create`, `SetColor`, `SetMultiline`, `SetVAlign`,
`SetHAlign`).  The function bodies live in a `.c` file that is not part of
the provided sources, so the operations below are modelled from the spec's
uniform contract ("given a valid handle and a valid enumerated value, apply
the change and return success; given an invalid handle or out-of-range
value, return failure without side effects"), while every constant,
enumeration member and structure field is taken from the header itself.
-/

/-- Color value (`GUI_Color_t`), an unsigned machine integer. -/
abbrev GUI_Color_t := Nat

/-- Modelled from the spec: the toolkit-wide vertical alignment enumeration
(`GUI_VALIGN_t`, declared in `gui_widget.h`, which is not among the provided
sources).  The spec lists exactly the members top/center/bottom; values
follow plain C enumeration numbering. -/
def GUI_VALIGN_TOP : Nat := 0x00

/-- Modelled from the spec: toolkit-wide vertical alignment, center member. -/
def GUI_VALIGN_CENTER : Nat := 0x01

/-- Modelled from the spec: toolkit-wide vertical alignment, bottom member. -/
def GUI_VALIGN_BOTTOM : Nat := 0x02

/-- Modelled from the spec: the toolkit-wide horizontal alignment enumeration
(`GUI_HALIGN_t`, declared in `gui_widget.h`, not provided).  The spec lists
exactly the members left/center/right. -/
def GUI_HALIGN_LEFT : Nat := 0x00

/-- Modelled from the spec: toolkit-wide horizontal alignment, center member. -/
def GUI_HALIGN_CENTER : Nat := 0x01

/-- Modelled from the spec: toolkit-wide horizontal alignment, right member. -/
def GUI_HALIGN_RIGHT : Nat := 0x02

/-- `GUI_EDITTEXT_COLOR_BG = 0x00` (background color index, from the header). -/
def GUI_EDITTEXT_COLOR_BG : Nat := 0x00

/-- `GUI_EDITTEXT_COLOR_FG` (foreground color index, next enumerator). -/
def GUI_EDITTEXT_COLOR_FG : Nat := 0x01

/-- `GUI_EDITTEXT_COLOR_BORDER` (border color index, next enumerator). -/
def GUI_EDITTEXT_COLOR_BORDER : Nat := 0x02

/-- `GUI_EDITTEXT_VALIGN_TOP = GUI_VALIGN_TOP` (from the header). -/
def GUI_EDITTEXT_VALIGN_TOP : Nat := GUI_VALIGN_TOP

/-- `GUI_EDITTEXT_VALIGN_CENTER = GUI_VALIGN_CENTER` (from the header). -/
def GUI_EDITTEXT_VALIGN_CENTER : Nat := GUI_VALIGN_CENTER

/-- `GUI_EDITTEXT_VALIGN_BOTTOM = GUI_VALIGN_BOTTOM` (from the header). -/
def GUI_EDITTEXT_VALIGN_BOTTOM : Nat := GUI_VALIGN_BOTTOM

/-- `GUI_EDITTEXT_HALIGN_LEFT = GUI_HALIGN_LEFT` (from the header). -/
def GUI_EDITTEXT_HALIGN_LEFT : Nat := GUI_HALIGN_LEFT

/-- `GUI_EDITTEXT_HALIGN_CENTER = GUI_HALIGN_CENTER` (from the header). -/
def GUI_EDITTEXT_HALIGN_CENTER : Nat := GUI_HALIGN_CENTER

/-- `GUI_EDITTEXT_HALIGN_RIGHT = GUI_HALIGN_RIGHT` (from the header). -/
def GUI_EDITTEXT_HALIGN_RIGHT : Nat := GUI_HALIGN_RIGHT

/-- `GUI_EDITTEXT_FLAG_MULTILINE = ((uint8_t)0x01)` (from the header). -/
def GUI_EDITTEXT_FLAG_MULTILINE : Nat := 0x01

/-- The generic widget handle object (`GUI_HANDLE C`, "must always be first
on list").  The base widget type `GUI_HANDLE` is declared in `gui_widget.h`,
which is not provided; modelled from the spec, it carries identity, position,
size, parent and callback, plus the three color slots addressed by
`GUI_EDITTEXT_SetColor` (background, foreground, border). -/
structure GUI_HANDLE where
  Id : Nat
  X : Int
  Y : Int
  Width : Nat
  Height : Nat
  Parent : Nat
  Callback : Nat
  CreateFlags : Nat
  ColorBG : GUI_Color_t
  ColorFG : GUI_Color_t
  ColorBORDER : GUI_Color_t
deriving Repr, DecidableEq

/-- The edit-text widget structure `GUI_EDITTEXT_t` from the header:
the embedded `GUI_HANDLE C`, the `uint8_t Flags` bit set, and the two
stored alignment settings `VAlign` and `HAlign`. -/
structure GUI_EDITTEXT_t where
  C : GUI_HANDLE
  Flags : Nat
  VAlign : Nat
  HAlign : Nat
deriving Repr, DecidableEq

/-- Modelled from the spec: the toolkit's widget-tree state visible to this
interface — the live widgets keyed by handle (0 is the null handle), the
"current active parent widget" used by `Create` when `parent` is NULL, and
the allocator's next handle counter.  The widget-tree manager itself lives
outside the provided sources. -/
structure GUI_State where
  widgets : List (Nat × GUI_EDITTEXT_t)
  activeParent : Nat
  nextHandle : Nat
deriving Repr, DecidableEq

/-- Modelled from the spec: a handle is valid when it is non-null and refers
to a live widget in the toolkit's widget tree. -/
def validHandle (s : GUI_State) (h : Nat) : Bool :=
  h ≠ 0 && (s.widgets.lookup h).isSome

/-- Modelled from the spec: a color index is in range exactly when it is one
of the three `GUI_EDITTEXT_COLOR_t` enumerators. -/
def validColorIndex (index : Nat) : Bool :=
  index = GUI_EDITTEXT_COLOR_BG || index = GUI_EDITTEXT_COLOR_FG ||
    index = GUI_EDITTEXT_COLOR_BORDER

/-- Modelled from the spec: a vertical alignment is in range exactly when it
is one of the three `GUI_EDITTEXT_VALIGN_t` enumerators. -/
def validVAlign (align : Nat) : Bool :=
  align = GUI_EDITTEXT_VALIGN_TOP || align = GUI_EDITTEXT_VALIGN_CENTER ||
    align = GUI_EDITTEXT_VALIGN_BOTTOM

/-- Modelled from the spec: a horizontal alignment is in range exactly when
it is one of the three `GUI_EDITTEXT_HALIGN_t` enumerators. -/
def validHAlign (align : Nat) : Bool :=
  align = GUI_EDITTEXT_HALIGN_LEFT || align = GUI_EDITTEXT_HALIGN_CENTER ||
    align = GUI_EDITTEXT_HALIGN_RIGHT

/-- Apply `f` to the widget stored under handle `h`, leaving every other
entry of the widget tree untouched. -/
def updateWidget (s : GUI_State) (h : Nat) (f : GUI_EDITTEXT_t → GUI_EDITTEXT_t) :
    GUI_State :=
  { s with widgets := s.widgets.map fun p => if p.1 = h then (p.1, f p.2) else p }

/-- The widget's `Flags` field after `SetMultiline` with argument
`multiline`: nonzero sets the `GUI_EDITTEXT_FLAG_MULTILINE` bit, zero clears
it, within the `uint8_t` field. -/
def edittextFlagsAfter (flags multiline : Nat) : Nat :=
  if multiline ≠ 0 then flags ||| GUI_EDITTEXT_FLAG_MULTILINE
  else flags &&& (0xFF ^^^ GUI_EDITTEXT_FLAG_MULTILINE)

/-- Modelled from the spec: `GUI_EDITTEXT_SetColor` — with a valid handle and
a valid `GUI_EDITTEXT_COLOR_t` index, store `color` in the addressed color
slot and return 1; otherwise return 0 and leave the state unchanged.
(The `.c` implementation is not among the provided sources.) -/
def GUI_EDITTEXT_SetColor (s : GUI_State) (h : Nat) (index : Nat)
    (color : GUI_Color_t) : Nat × GUI_State :=
  if validHandle s h && validColorIndex index then
    (1, updateWidget s h fun w =>
      if index = GUI_EDITTEXT_COLOR_BG then
        { w with C := { w.C with ColorBG := color } }
      else if index = GUI_EDITTEXT_COLOR_FG then
        { w with C := { w.C with ColorFG := color } }
      else
        { w with C := { w.C with ColorBORDER := color } })
  else (0, s)

/-- Modelled from the spec: the color getter implied by the spec's set/get
round-trip property — read the color slot addressed by `index` of the widget
under handle `h`. -/
def GUI_EDITTEXT_GetColor (s : GUI_State) (h : Nat) (index : Nat) :
    Option GUI_Color_t :=
  match s.widgets.lookup h with
  | none => none
  | some w =>
    if index = GUI_EDITTEXT_COLOR_BG then some w.C.ColorBG
    else if index = GUI_EDITTEXT_COLOR_FG then some w.C.ColorFG
    else if index = GUI_EDITTEXT_COLOR_BORDER then some w.C.ColorBORDER
    else none

/-- Modelled from the spec: `GUI_EDITTEXT_SetMultiline` — with a valid handle,
set or clear the `GUI_EDITTEXT_FLAG_MULTILINE` bit of `Flags` and return 1;
with an invalid handle return 0 and leave the state unchanged. -/
def GUI_EDITTEXT_SetMultiline (s : GUI_State) (h : Nat) (multiline : Nat) :
    Nat × GUI_State :=
  if validHandle s h then
    (1, updateWidget s h fun w =>
      { w with Flags := edittextFlagsAfter w.Flags multiline })
  else (0, s)

/-- Modelled from the spec: `GUI_EDITTEXT_SetVAlign` — with a valid handle and
a valid `GUI_EDITTEXT_VALIGN_t` value, store it in `VAlign` and return 1;
otherwise return 0 and leave the state unchanged. -/
def GUI_EDITTEXT_SetVAlign (s : GUI_State) (h : Nat) (align : Nat) :
    Nat × GUI_State :=
  if validHandle s h && validVAlign align then
    (1, updateWidget s h fun w => { w with VAlign := align })
  else (0, s)

/-- Modelled from the spec: `GUI_EDITTEXT_SetHAlign` — with a valid handle and
a valid `GUI_EDITTEXT_HALIGN_t` value, store it in `HAlign` and return 1;
otherwise return 0 and leave the state unchanged. -/
def GUI_EDITTEXT_SetHAlign (s : GUI_State) (h : Nat) (align : Nat) :
    Nat × GUI_State :=
  if validHandle s h && validHAlign align then
    (1, updateWidget s h fun w => { w with HAlign := align })
  else (0, s)

/-- Modelled from the spec: the effective vertical alignment used to position
text.  The header's note on `SetMultiline` — "When multiline is enabled,
vertical text alignment is always top positioned" — is a behavioral override
of the stored `VAlign`, not a structural one. -/
def effectiveVAlign (w : GUI_EDITTEXT_t) : Nat :=
  if w.Flags &&& GUI_EDITTEXT_FLAG_MULTILINE ≠ 0 then GUI_EDITTEXT_VALIGN_TOP
  else w.VAlign

/-- Modelled from the spec: `GUI_EDITTEXT_Create` — request instantiation of a
new edit-text widget.  `allocOk` stands for the external widget-tree
manager's allocation outcome (its code is not among the provided sources).
On success the widget is allocated a fresh non-null handle, placed under
`parent` — or under the current active parent when `parent` is NULL — at the
given position and size, with default alignment; on failure the null handle
0 is returned and nothing changes. -/
def GUI_EDITTEXT_Create (s : GUI_State) (allocOk : Bool) (id : Nat)
    (x y : Int) (width height : Nat) (parent : Nat) (cb : Nat)
    (flags : Nat) : Nat × GUI_State :=
  if allocOk then
    let p := if parent = 0 then s.activeParent else parent
    let h := s.nextHandle + 1
    let w : GUI_EDITTEXT_t :=
      { C := { Id := id, X := x, Y := y, Width := width, Height := height,
               Parent := p, Callback := cb, CreateFlags := flags,
               ColorBG := 0, ColorFG := 0, ColorBORDER := 0 },
        Flags := 0,
        VAlign := GUI_EDITTEXT_VALIGN_TOP,
        HAlign := GUI_EDITTEXT_HALIGN_LEFT }
    (h, { s with widgets := (h, w) :: s.widgets, nextHandle := h })
  else (0, s)

/-- A concrete edit-text widget used to witness the theorems below:
bottom vertical alignment, no flags set. -/
def wDemo : GUI_EDITTEXT_t :=
  { C := { Id := 1, X := 10, Y := 10, Width := 400, Height := 40, Parent := 0,
           Callback := 0, CreateFlags := 0, ColorBG := 0, ColorFG := 0,
           ColorBORDER := 0 },
    Flags := 0,
    VAlign := GUI_EDITTEXT_VALIGN_BOTTOM,
    HAlign := GUI_EDITTEXT_HALIGN_LEFT }

/-- A concrete widget-tree state holding `wDemo` under handle 1. -/
def sDemo : GUI_State :=
  { widgets := [(1, wDemo)], activeParent := 1, nextHandle := 1 }

theorem lookup_map_update (l : List (Nat × GUI_EDITTEXT_t)) (h : Nat)
    (f : GUI_EDITTEXT_t → GUI_EDITTEXT_t) :
    (l.map fun p => if p.1 = h then (p.1, f p.2) else p).lookup h =
      (l.lookup h).map f := by
  induction l with
  | nil => rfl
  | cons a t ih =>
    rcases a with ⟨k, b⟩
    by_cases hk : k = h
    · subst hk
      simp [List.lookup_cons, ih]
    · simp only [List.map_cons]
      rw [show (if (k, b).1 = h then ((k, b).1, f (k, b).2) else (k, b)) = (k, b)
        from if_neg hk]
      simp [List.lookup_cons, beq_false_of_ne (Ne.symm hk), ih]

theorem lookup_map_update_ne (l : List (Nat × GUI_EDITTEXT_t)) (h h' : Nat)
    (hne : h' ≠ h) (f : GUI_EDITTEXT_t → GUI_EDITTEXT_t) :
    (l.map fun p => if p.1 = h then (p.1, f p.2) else p).lookup h' =
      l.lookup h' := by
  induction l with
  | nil => rfl
  | cons a t ih =>
    rcases a with ⟨k, b⟩
    by_cases hk : k = h
    · subst hk
      simp [List.lookup_cons, beq_false_of_ne hne, ih]
    · simp only [List.map_cons]
      rw [show (if (k, b).1 = h then ((k, b).1, f (k, b).2) else (k, b)) = (k, b)
        from if_neg hk]
      by_cases hk' : h' = k
      · subst hk'
        simp [List.lookup_cons]
      · simp [List.lookup_cons, beq_false_of_ne hk', ih]

theorem lookup_updateWidget (s : GUI_State) (h : Nat)
    (f : GUI_EDITTEXT_t → GUI_EDITTEXT_t) :
    (updateWidget s h f).widgets.lookup h = (s.widgets.lookup h).map f :=
  lookup_map_update s.widgets h f

theorem lookup_updateWidget_ne (s : GUI_State) (h h' : Nat) (hne : h' ≠ h)
    (f : GUI_EDITTEXT_t → GUI_EDITTEXT_t) :
    (updateWidget s h f).widgets.lookup h' = s.widgets.lookup h' :=
  lookup_map_update_ne s.widgets h h' hne f

theorem testBit_254 (i : Nat) (h1 : i ≠ 0) (h8 : i < 8) :
    Nat.testBit 254 i = true := by
  interval_cases i
  · exact absurd rfl h1
  all_goals decide

theorem or_one_and_one_ne_zero (f : Nat) : (f ||| 1) &&& 1 ≠ 0 := by
  intro h0
  have hb : ((f ||| 1) &&& 1).testBit 0 = true := by
    simp [Nat.testBit_land, Nat.testBit_lor]
  rw [h0] at hb
  simp at hb

theorem and_mask_testBit_zero (f : Nat) :
    (f &&& (0xFF ^^^ 1)).testBit 0 = false := by
  simp [Nat.testBit_land]

theorem or_one_testBit_ne (f i : Nat) (hi : i ≠ 0) :
    (f ||| 1).testBit i = f.testBit i := by
  simp [Nat.testBit_lor, Nat.testBit_one_eq_true_iff_self_eq_zero, hi]

theorem and_mask_testBit_ne (f i : Nat) (hf : f < 256) (hi : i ≠ 0) :
    (f &&& (0xFF ^^^ 1)).testBit i = f.testBit i := by
  rcases lt_or_ge i 8 with h8 | h8
  · simp [Nat.testBit_land, show ((0xFF : Nat) ^^^ 1) = 254 from rfl,
      testBit_254 i hi h8]
  · have h1 : f.testBit i = false :=
      Nat.testBit_lt_two_pow
        (lt_of_lt_of_le hf (Nat.pow_le_pow_right (show 0 < 2 by norm_num) h8))
    simp [Nat.testBit_land, h1]

/-- C1: for every edit-text widget whose multiline flag is set, the effective
vertical alignment is top, regardless of the stored vertical-align value; and
calling `GUI_EDITTEXT_SetMultiline (h, 1)` on a widget whose vertical
alignment was previously bottom or center makes the effective vertical
alignment top. -/
theorem edittext_multiline_forces_vtop :
    (∀ w : GUI_EDITTEXT_t, w.Flags &&& GUI_EDITTEXT_FLAG_MULTILINE ≠ 0 →
        effectiveVAlign w = GUI_EDITTEXT_VALIGN_TOP) ∧
    (∀ (s : GUI_State) (h : Nat) (w w' : GUI_EDITTEXT_t),
        s.widgets.lookup h = some w →
        validHandle s h = true →
        (w.VAlign = GUI_EDITTEXT_VALIGN_BOTTOM ∨
          w.VAlign = GUI_EDITTEXT_VALIGN_CENTER) →
        (GUI_EDITTEXT_SetMultiline s h 1).2.widgets.lookup h = some w' →
        effectiveVAlign w' = GUI_EDITTEXT_VALIGN_TOP) := by
  constructor
  · intro w hw
    rw [effectiveVAlign, if_pos hw]
  · intro s h w w' hw hv _ hw'
    rw [GUI_EDITTEXT_SetMultiline, if_pos hv] at hw'
    rw [lookup_updateWidget, hw] at hw'
    rw [Option.map_some'] at hw'
    have hflags : w'.Flags = w.Flags ||| 1 := by
      rw [← Option.some_inj.mp hw']
      simp [edittextFlagsAfter, GUI_EDITTEXT_FLAG_MULTILINE]
    have hne : w'.Flags &&& GUI_EDITTEXT_FLAG_MULTILINE ≠ 0 := by
      rw [hflags]
      exact or_one_and_one_ne_zero w.Flags
    rw [effectiveVAlign, if_pos hne]

/-- Witness for C1: enabling multiline on the demo widget (stored vertical
alignment bottom) makes the effective vertical alignment top. -/
theorem edittext_multiline_forces_vtop_witness :
    effectiveVAlign { wDemo with Flags := 1 } = GUI_EDITTEXT_VALIGN_TOP :=
  edittext_multiline_forces_vtop.2 sDemo 1 wDemo { wDemo with Flags := 1 }
    (by decide) (by decide) (Or.inl (by decide)) (by decide)

theorem validColorIndex_iff (index : Nat) :
    validColorIndex index = true ↔
      (index = GUI_EDITTEXT_COLOR_BG ∨ index = GUI_EDITTEXT_COLOR_FG ∨
        index = GUI_EDITTEXT_COLOR_BORDER) := by
  rw [validColorIndex]
  simp [or_assoc]

theorem validVAlign_iff (a : Nat) :
    validVAlign a = true ↔
      (a = GUI_EDITTEXT_VALIGN_TOP ∨ a = GUI_EDITTEXT_VALIGN_CENTER ∨
        a = GUI_EDITTEXT_VALIGN_BOTTOM) := by
  rw [validVAlign]
  simp [or_assoc]

theorem validHAlign_iff (a : Nat) :
    validHAlign a = true ↔
      (a = GUI_EDITTEXT_HALIGN_LEFT ∨ a = GUI_EDITTEXT_HALIGN_CENTER ∨
        a = GUI_EDITTEXT_HALIGN_RIGHT) := by
  rw [validHAlign]
  simp [or_assoc]

theorem validHandle_lookup (s : GUI_State) (h : Nat)
    (hv : validHandle s h = true) : ∃ w, s.widgets.lookup h = some w := by
  rw [validHandle, Bool.and_eq_true] at hv
  exact Option.isSome_iff_exists.mp hv.2

theorem getColor_setColor (s : GUI_State) (h index : Nat) (c : GUI_Color_t)
    (hv : validHandle s h = true) (hi : validColorIndex index = true) :
    GUI_EDITTEXT_GetColor (GUI_EDITTEXT_SetColor s h index c).2 h index =
      some c := by
  obtain ⟨w, hw⟩ := validHandle_lookup s h hv
  rw [GUI_EDITTEXT_SetColor, if_pos (by rw [Bool.and_eq_true]; exact ⟨hv, hi⟩)]
  rw [GUI_EDITTEXT_GetColor]
  rw [show ((1 : Nat), updateWidget s h _).2 = updateWidget s h _ from rfl]
  rw [lookup_updateWidget, hw, Option.map_some']
  rcases (validColorIndex_iff index).mp hi with h0 | h1 | h2
  · subst h0
    simp [GUI_EDITTEXT_COLOR_BG]
  · subst h1
    simp [GUI_EDITTEXT_COLOR_FG, GUI_EDITTEXT_COLOR_BG]
  · subst h2
    simp [GUI_EDITTEXT_COLOR_BORDER, GUI_EDITTEXT_COLOR_FG, GUI_EDITTEXT_COLOR_BG]

/-- C2: each mutating operation, given an invalid handle or an out-of-range
enumerated value, returns failure (0) and leaves the stored state entirely
unchanged; given a valid handle and valid value it applies the change and
returns success (1). -/
theorem edittext_setters_contract (s : GUI_State) (h index va ha m : Nat)
    (c : GUI_Color_t) :
    (¬(validHandle s h = true ∧ validColorIndex index = true) →
        GUI_EDITTEXT_SetColor s h index c = (0, s)) ∧
    (validHandle s h = true → validColorIndex index = true →
        (GUI_EDITTEXT_SetColor s h index c).1 = 1 ∧
        GUI_EDITTEXT_GetColor (GUI_EDITTEXT_SetColor s h index c).2 h index =
          some c) ∧
    (validHandle s h = false → GUI_EDITTEXT_SetMultiline s h m = (0, s)) ∧
    (validHandle s h = true →
        (GUI_EDITTEXT_SetMultiline s h m).1 = 1 ∧
        ∀ w, s.widgets.lookup h = some w →
          (GUI_EDITTEXT_SetMultiline s h m).2.widgets.lookup h =
            some { w with Flags := edittextFlagsAfter w.Flags m }) ∧
    (¬(validHandle s h = true ∧ validVAlign va = true) →
        GUI_EDITTEXT_SetVAlign s h va = (0, s)) ∧
    (validHandle s h = true → validVAlign va = true →
        (GUI_EDITTEXT_SetVAlign s h va).1 = 1 ∧
        ∀ w, s.widgets.lookup h = some w →
          (GUI_EDITTEXT_SetVAlign s h va).2.widgets.lookup h =
            some { w with VAlign := va }) ∧
    (¬(validHandle s h = true ∧ validHAlign ha = true) →
        GUI_EDITTEXT_SetHAlign s h ha = (0, s)) ∧
    (validHandle s h = true → validHAlign ha = true →
        (GUI_EDITTEXT_SetHAlign s h ha).1 = 1 ∧
        ∀ w, s.widgets.lookup h = some w →
          (GUI_EDITTEXT_SetHAlign s h ha).2.widgets.lookup h =
            some { w with HAlign := ha }) := by
  refine ⟨?_, ?_, ?_, ?_, ?_, ?_, ?_, ?_⟩
  · intro hnot
    rw [GUI_EDITTEXT_SetColor, if_neg]
    rw [Bool.and_eq_true]
    exact hnot
  · intro hv hi
    refine ⟨?_, getColor_setColor s h index c hv hi⟩
    rw [GUI_EDITTEXT_SetColor, if_pos (by rw [Bool.and_eq_true]; exact ⟨hv, hi⟩)]
  · intro hv
    rw [GUI_EDITTEXT_SetMultiline, if_neg]
    rw [hv]
    exact Bool.false_ne_true
  · intro hv
    rw [GUI_EDITTEXT_SetMultiline, if_pos hv]
    refine ⟨rfl, ?_⟩
    intro w hw
    rw [show ((1 : Nat), updateWidget s h _).2 = updateWidget s h _ from rfl]
    rw [lookup_updateWidget, hw, Option.map_some']
  · intro hnot
    rw [GUI_EDITTEXT_SetVAlign, if_neg]
    rw [Bool.and_eq_true]
    exact hnot
  · intro hv hva
    rw [GUI_EDITTEXT_SetVAlign, if_pos (by rw [Bool.and_eq_true]; exact ⟨hv, hva⟩)]
    refine ⟨rfl, ?_⟩
    intro w hw
    rw [show ((1 : Nat), updateWidget s h _).2 = updateWidget s h _ from rfl]
    rw [lookup_updateWidget, hw, Option.map_some']
  · intro hnot
    rw [GUI_EDITTEXT_SetHAlign, if_neg]
    rw [Bool.and_eq_true]
    exact hnot
  · intro hv hha
    rw [GUI_EDITTEXT_SetHAlign, if_pos (by rw [Bool.and_eq_true]; exact ⟨hv, hha⟩)]
    refine ⟨rfl, ?_⟩
    intro w hw
    rw [show ((1 : Nat), updateWidget s h _).2 = updateWidget s h _ from rfl]
    rw [lookup_updateWidget, hw, Option.map_some']

/-- Witness for C2: on the demo state, `SetVAlign` with the out-of-range
value 7 fails and changes nothing, while `SetVAlign` with center on the
valid handle 1 succeeds. -/
theorem edittext_setters_contract_witness :
    GUI_EDITTEXT_SetVAlign sDemo 1 7 = (0, sDemo) ∧
    (GUI_EDITTEXT_SetVAlign sDemo 1 GUI_EDITTEXT_VALIGN_CENTER).1 = 1 :=
  ⟨(edittext_setters_contract sDemo 1 0 7 0 0 0).2.2.2.2.1
      (fun hand => by exact absurd hand.2 (by decide)),
    ((edittext_setters_contract sDemo 1 0 GUI_EDITTEXT_VALIGN_CENTER 0 0 0).2.2.2.2.2.1
      (by decide) (by decide)).1⟩

/-- C3: for every valid handle and valid color index, `SetColor` followed by
the corresponding color getter returns exactly the color value that was set,
and a color index is valid exactly when it selects one of the three roles
background, foreground, border. -/
theorem edittext_setcolor_roundtrip (s : GUI_State) (h index : Nat)
    (c : GUI_Color_t) (hv : validHandle s h = true)
    (hi : validColorIndex index = true) :
    GUI_EDITTEXT_GetColor (GUI_EDITTEXT_SetColor s h index c).2 h index =
      some c ∧
    (∀ i : Nat, validColorIndex i = true ↔
      (i = GUI_EDITTEXT_COLOR_BG ∨ i = GUI_EDITTEXT_COLOR_FG ∨
        i = GUI_EDITTEXT_COLOR_BORDER)) :=
  ⟨getColor_setColor s h index c hv hi, validColorIndex_iff⟩

/-- Witness for C3: setting the border color of the demo widget to `0xABCDEF`
and reading it back yields `0xABCDEF`. -/
theorem edittext_setcolor_roundtrip_witness :
    GUI_EDITTEXT_GetColor
        (GUI_EDITTEXT_SetColor sDemo 1 GUI_EDITTEXT_COLOR_BORDER 0xABCDEF).2
        1 GUI_EDITTEXT_COLOR_BORDER = some 0xABCDEF :=
  (edittext_setcolor_roundtrip sDemo 1 GUI_EDITTEXT_COLOR_BORDER 0xABCDEF
    (by decide) (by decide)).1

/-- C4: every mutating operation reports its outcome as a single-bit result —
its returned status is either 0 (failure) or 1 (success), for all inputs,
with no further error discrimination. -/
theorem edittext_results_single_bit (s : GUI_State) (h index va ha m : Nat)
    (c : GUI_Color_t) :
    ((GUI_EDITTEXT_SetColor s h index c).1 = 0 ∨
      (GUI_EDITTEXT_SetColor s h index c).1 = 1) ∧
    ((GUI_EDITTEXT_SetMultiline s h m).1 = 0 ∨
      (GUI_EDITTEXT_SetMultiline s h m).1 = 1) ∧
    ((GUI_EDITTEXT_SetVAlign s h va).1 = 0 ∨
      (GUI_EDITTEXT_SetVAlign s h va).1 = 1) ∧
    ((GUI_EDITTEXT_SetHAlign s h ha).1 = 0 ∨
      (GUI_EDITTEXT_SetHAlign s h ha).1 = 1) := by
  refine ⟨?_, ?_, ?_, ?_⟩
  · rw [GUI_EDITTEXT_SetColor]
    split
    · exact Or.inr rfl
    · exact Or.inl rfl
  · rw [GUI_EDITTEXT_SetMultiline]
    split
    · exact Or.inr rfl
    · exact Or.inl rfl
  · rw [GUI_EDITTEXT_SetVAlign]
    split
    · exact Or.inr rfl
    · exact Or.inl rfl
  · rw [GUI_EDITTEXT_SetHAlign]
    split
    · exact Or.inr rfl
    · exact Or.inl rfl

/-- C5: `Create` returns a non-zero handle exactly when widget creation
succeeds (the created widget is then live under that handle), and returns the
null handle 0, changing nothing, when creation fails. -/
theorem edittext_create_null_sentinel (s : GUI_State) (ok : Bool) (id : Nat)
    (x y : Int) (width height parent cb flags : Nat) :
    ((GUI_EDITTEXT_Create s ok id x y width height parent cb flags).1 ≠ 0 ↔
      ok = true) ∧
    (ok = true →
      ((GUI_EDITTEXT_Create s ok id x y width height parent cb
          flags).2.widgets.lookup
        (GUI_EDITTEXT_Create s ok id x y width height parent cb
          flags).1).isSome = true) ∧
    (ok = false →
      GUI_EDITTEXT_Create s ok id x y width height parent cb flags = (0, s)) := by
  cases ok <;>
    simp [GUI_EDITTEXT_Create, List.lookup_cons]

/-- Witness for C5: on the demo state a failed creation returns the null
handle and a successful one returns a non-zero handle. -/
theorem edittext_create_null_sentinel_witness :
    GUI_EDITTEXT_Create sDemo false 2 0 0 10 10 0 0 0 = (0, sDemo) ∧
    ((GUI_EDITTEXT_Create sDemo true 2 0 0 10 10 0 0 0).1 ≠ 0) :=
  ⟨(edittext_create_null_sentinel sDemo false 2 0 0 10 10 0 0 0).2.2 rfl,
    (edittext_create_null_sentinel sDemo true 2 0 0 10 10 0 0 0).1.mpr rfl⟩

/-- C7: a successful `Create` with the NULL parent handle places the new
widget under the toolkit's current active parent widget instead of failing;
with a non-null parent it is placed under that parent, at the given position
and size. -/
theorem edittext_create_parent_fallback (s : GUI_State) (id : Nat) (x y : Int)
    (width height parent cb flags : Nat) :
    ((GUI_EDITTEXT_Create s true id x y width height parent cb flags).1 ≠ 0) ∧
    (∀ w, (GUI_EDITTEXT_Create s true id x y width height parent cb
          flags).2.widgets.lookup
        (GUI_EDITTEXT_Create s true id x y width height parent cb
          flags).1 = some w →
      w.C.Parent = (if parent = 0 then s.activeParent else parent) ∧
      w.C.X = x ∧ w.C.Y = y ∧ w.C.Width = width ∧ w.C.Height = height) := by
  constructor
  · simp [GUI_EDITTEXT_Create]
  · intro w hw
    simp [GUI_EDITTEXT_Create, List.lookup_cons] at hw
    rw [← hw]
    exact ⟨rfl, rfl, rfl, rfl, rfl⟩

/-- Witness for C7: creating a widget on the demo state with the NULL parent
handle puts it under the active parent (handle 1). -/
theorem edittext_create_parent_fallback_witness :
    (GUI_EDITTEXT_Create sDemo true 2 20 30 100 50 0 0 0).1 ≠ 0 ∧
    ∀ w, (GUI_EDITTEXT_Create sDemo true 2 20 30 100 50 0 0
        0).2.widgets.lookup
      (GUI_EDITTEXT_Create sDemo true 2 20 30 100 50 0 0 0).1 = some w →
      w.C.Parent = (if (0 : Nat) = 0 then sDemo.activeParent else 0) ∧
      w.C.X = 20 ∧ w.C.Y = 30 ∧ w.C.Width = 100 ∧ w.C.Height = 50 :=
  edittext_create_parent_fallback sDemo 2 20 30 100 50 0 0 0

/-- C6: each successful mutating operation is a single field assignment —
`SetVAlign` yields the old widget with only `VAlign` replaced, `SetHAlign`
with only `HAlign` replaced, `SetMultiline` with only `Flags` replaced, and
`SetColor` with only the addressed color slot replaced; widgets under every
other handle are untouched. -/
theorem edittext_setters_frame (s : GUI_State) (h va ha m index : Nat)
    (c : GUI_Color_t) (w : GUI_EDITTEXT_t)
    (hw : s.widgets.lookup h = some w) (hv : validHandle s h = true) :
    (validVAlign va = true →
      (GUI_EDITTEXT_SetVAlign s h va).2.widgets.lookup h =
        some { w with VAlign := va }) ∧
    (validHAlign ha = true →
      (GUI_EDITTEXT_SetHAlign s h ha).2.widgets.lookup h =
        some { w with HAlign := ha }) ∧
    ((GUI_EDITTEXT_SetMultiline s h m).2.widgets.lookup h =
      some { w with Flags := edittextFlagsAfter w.Flags m }) ∧
    ((GUI_EDITTEXT_SetColor s h GUI_EDITTEXT_COLOR_BG c).2.widgets.lookup h =
      some { w with C := { w.C with ColorBG := c } }) ∧
    ((GUI_EDITTEXT_SetColor s h GUI_EDITTEXT_COLOR_FG c).2.widgets.lookup h =
      some { w with C := { w.C with ColorFG := c } }) ∧
    ((GUI_EDITTEXT_SetColor s h GUI_EDITTEXT_COLOR_BORDER c).2.widgets.lookup h =
      some { w with C := { w.C with ColorBORDER := c } }) ∧
    (∀ h', h' ≠ h →
      (GUI_EDITTEXT_SetVAlign s h va).2.widgets.lookup h' =
        s.widgets.lookup h' ∧
      (GUI_EDITTEXT_SetHAlign s h ha).2.widgets.lookup h' =
        s.widgets.lookup h' ∧
      (GUI_EDITTEXT_SetMultiline s h m).2.widgets.lookup h' =
        s.widgets.lookup h' ∧
      (GUI_EDITTEXT_SetColor s h index c).2.widgets.lookup h' =
        s.widgets.lookup h') := by
  refine ⟨?_, ?_, ?_, ?_, ?_, ?_, ?_⟩
  · intro hva
    rw [GUI_EDITTEXT_SetVAlign, if_pos (by rw [Bool.and_eq_true]; exact ⟨hv, hva⟩)]
    rw [show ((1 : Nat), updateWidget s h _).2 = updateWidget s h _ from rfl]
    rw [lookup_updateWidget, hw, Option.map_some']
  · intro hha
    rw [GUI_EDITTEXT_SetHAlign, if_pos (by rw [Bool.and_eq_true]; exact ⟨hv, hha⟩)]
    rw [show ((1 : Nat), updateWidget s h _).2 = updateWidget s h _ from rfl]
    rw [lookup_updateWidget, hw, Option.map_some']
  · rw [GUI_EDITTEXT_SetMultiline, if_pos hv]
    rw [show ((1 : Nat), updateWidget s h _).2 = updateWidget s h _ from rfl]
    rw [lookup_updateWidget, hw, Option.map_some']
  · rw [GUI_EDITTEXT_SetColor,
      if_pos (by rw [Bool.and_eq_true]; exact ⟨hv, by decide⟩)]
    rw [show ((1 : Nat), updateWidget s h _).2 = updateWidget s h _ from rfl]
    rw [lookup_updateWidget, hw, Option.map_some', if_pos rfl]
  · rw [GUI_EDITTEXT_SetColor,
      if_pos (by rw [Bool.and_eq_true]; exact ⟨hv, by decide⟩)]
    rw [show ((1 : Nat), updateWidget s h _).2 = updateWidget s h _ from rfl]
    rw [lookup_updateWidget, hw, Option.map_some']
    simp [GUI_EDITTEXT_COLOR_FG, GUI_EDITTEXT_COLOR_BG]
  · rw [GUI_EDITTEXT_SetColor,
      if_pos (by rw [Bool.and_eq_true]; exact ⟨hv, by decide⟩)]
    rw [show ((1 : Nat), updateWidget s h _).2 = updateWidget s h _ from rfl]
    rw [lookup_updateWidget, hw, Option.map_some']
    simp [GUI_EDITTEXT_COLOR_BORDER, GUI_EDITTEXT_COLOR_FG, GUI_EDITTEXT_COLOR_BG]
  · intro h' hne
    refine ⟨?_, ?_, ?_, ?_⟩
    · by_cases hc : (validHandle s h && validVAlign va) = true
      · rw [GUI_EDITTEXT_SetVAlign, if_pos hc]
        exact lookup_updateWidget_ne s h h' hne _
      · rw [GUI_EDITTEXT_SetVAlign, if_neg hc]
    · by_cases hc : (validHandle s h && validHAlign ha) = true
      · rw [GUI_EDITTEXT_SetHAlign, if_pos hc]
        exact lookup_updateWidget_ne s h h' hne _
      · rw [GUI_EDITTEXT_SetHAlign, if_neg hc]
    · rw [GUI_EDITTEXT_SetMultiline, if_pos hv]
      exact lookup_updateWidget_ne s h h' hne _
    · by_cases hc : (validHandle s h && validColorIndex index) = true
      · rw [GUI_EDITTEXT_SetColor, if_pos hc]
        exact lookup_updateWidget_ne s h h' hne _
      · rw [GUI_EDITTEXT_SetColor, if_neg hc]

/-- Witness for C6: setting center vertical alignment on the demo widget
yields the demo widget with only `VAlign` replaced. -/
theorem edittext_setters_frame_witness :
    (GUI_EDITTEXT_SetVAlign sDemo 1 GUI_EDITTEXT_VALIGN_CENTER).2.widgets.lookup 1 =
      some { wDemo with VAlign := GUI_EDITTEXT_VALIGN_CENTER } :=
  (edittext_setters_frame sDemo 1 GUI_EDITTEXT_VALIGN_CENTER 0 0 0 0 wDemo
    (by decide) (by decide)).1 (by decide)

/-- C8: the vertical alignment enumeration accepted by `SetVAlign` has
exactly the three distinct members top, center, bottom, and the horizontal
alignment enumeration accepted by `SetHAlign` has exactly the three distinct
members left, center, right; a freshly created widget defaults to top
vertical and left horizontal alignment. -/
theorem edittext_alignment_enums :
    (∀ a, validVAlign a = true ↔
      (a = GUI_EDITTEXT_VALIGN_TOP ∨ a = GUI_EDITTEXT_VALIGN_CENTER ∨
        a = GUI_EDITTEXT_VALIGN_BOTTOM)) ∧
    (GUI_EDITTEXT_VALIGN_TOP ≠ GUI_EDITTEXT_VALIGN_CENTER ∧
      GUI_EDITTEXT_VALIGN_TOP ≠ GUI_EDITTEXT_VALIGN_BOTTOM ∧
      GUI_EDITTEXT_VALIGN_CENTER ≠ GUI_EDITTEXT_VALIGN_BOTTOM) ∧
    (∀ a, validHAlign a = true ↔
      (a = GUI_EDITTEXT_HALIGN_LEFT ∨ a = GUI_EDITTEXT_HALIGN_CENTER ∨
        a = GUI_EDITTEXT_HALIGN_RIGHT)) ∧
    (GUI_EDITTEXT_HALIGN_LEFT ≠ GUI_EDITTEXT_HALIGN_CENTER ∧
      GUI_EDITTEXT_HALIGN_LEFT ≠ GUI_EDITTEXT_HALIGN_RIGHT ∧
      GUI_EDITTEXT_HALIGN_CENTER ≠ GUI_EDITTEXT_HALIGN_RIGHT) ∧
    (∀ (s : GUI_State) (id : Nat) (x y : Int)
        (width height parent cb flags : Nat) (w : GUI_EDITTEXT_t),
      (GUI_EDITTEXT_Create s true id x y width height parent cb
          flags).2.widgets.lookup
        (GUI_EDITTEXT_Create s true id x y width height parent cb
          flags).1 = some w →
      w.VAlign = GUI_EDITTEXT_VALIGN_TOP ∧
        w.HAlign = GUI_EDITTEXT_HALIGN_LEFT) := by
  refine ⟨validVAlign_iff, by decide, validHAlign_iff, by decide, ?_⟩
  intro s id x y width height parent cb flags w hw
  simp [GUI_EDITTEXT_Create, List.lookup_cons] at hw
  rw [← hw]
  exact ⟨rfl, rfl⟩

/-- The widget that a successful `Create` on the demo state produces
(fresh handle, under the active parent, default alignment). -/
def wNew : GUI_EDITTEXT_t :=
  { C := { Id := 2, X := 0, Y := 0, Width := 10, Height := 10, Parent := 1,
           Callback := 0, CreateFlags := 0, ColorBG := 0, ColorFG := 0,
           ColorBORDER := 0 },
    Flags := 0,
    VAlign := GUI_EDITTEXT_VALIGN_TOP,
    HAlign := GUI_EDITTEXT_HALIGN_LEFT }

/-- Witness for C8: on concrete inputs — alignment value 2 is a valid
vertical alignment (bottom), 3 is not, and the widget created on the demo
state defaults to top/left alignment. -/
theorem edittext_alignment_enums_witness :
    (validVAlign 2 = true ↔
      ((2 : Nat) = GUI_EDITTEXT_VALIGN_TOP ∨
        (2 : Nat) = GUI_EDITTEXT_VALIGN_CENTER ∨
        (2 : Nat) = GUI_EDITTEXT_VALIGN_BOTTOM)) ∧
    (validHAlign 3 = true ↔
      ((3 : Nat) = GUI_EDITTEXT_HALIGN_LEFT ∨
        (3 : Nat) = GUI_EDITTEXT_HALIGN_CENTER ∨
        (3 : Nat) = GUI_EDITTEXT_HALIGN_RIGHT)) ∧
    (wNew.VAlign = GUI_EDITTEXT_VALIGN_TOP ∧
      wNew.HAlign = GUI_EDITTEXT_HALIGN_LEFT) :=
  ⟨edittext_alignment_enums.1 2, edittext_alignment_enums.2.2.1 3,
    edittext_alignment_enums.2.2.2.2 sDemo 2 0 0 10 10 0 0 0 wNew (by decide)⟩

/-- C9: the multiline mode is the single bit `0x01` of the `uint8_t` `Flags`
field — `SetMultiline(h, 1)` sets exactly bit 0 and `SetMultiline(h, 0)`
clears exactly bit 0, leaving every other bit of `Flags` unchanged and the
value within eight bits. -/
theorem edittext_multiline_flag_bit (s : GUI_State) (h : Nat)
    (w : GUI_EDITTEXT_t) (hw : s.widgets.lookup h = some w)
    (hv : validHandle s h = true) (hf : w.Flags < 256) :
    GUI_EDITTEXT_FLAG_MULTILINE = 2 ^ 0 ∧
    (∀ w1, (GUI_EDITTEXT_SetMultiline s h 1).2.widgets.lookup h = some w1 →
        w1.Flags.testBit 0 = true ∧ w1.Flags < 256 ∧
        ∀ i, i ≠ 0 → w1.Flags.testBit i = w.Flags.testBit i) ∧
    (∀ w0, (GUI_EDITTEXT_SetMultiline s h 0).2.widgets.lookup h = some w0 →
        w0.Flags.testBit 0 = false ∧ w0.Flags < 256 ∧
        ∀ i, i ≠ 0 → w0.Flags.testBit i = w.Flags.testBit i) := by
  refine ⟨rfl, ?_, ?_⟩
  · intro w1 hw1
    rw [GUI_EDITTEXT_SetMultiline, if_pos hv] at hw1
    rw [show ((1 : Nat), updateWidget s h _).2 = updateWidget s h _ from rfl]
      at hw1
    rw [lookup_updateWidget, hw, Option.map_some'] at hw1
    have h1 : w1.Flags = w.Flags ||| 1 := by
      rw [← Option.some_inj.mp hw1]
      simp [edittextFlagsAfter, GUI_EDITTEXT_FLAG_MULTILINE]
    rw [h1]
    have hlt : w.Flags ||| 1 < 2 ^ 8 :=
      Nat.or_lt_two_pow (by simpa using hf) (by norm_num)
    exact ⟨by simp [Nat.testBit_lor], by simpa using hlt,
      fun i hi => or_one_testBit_ne w.Flags i hi⟩
  · intro w0 hw0
    rw [GUI_EDITTEXT_SetMultiline, if_pos hv] at hw0
    rw [show ((1 : Nat), updateWidget s h _).2 = updateWidget s h _ from rfl]
      at hw0
    rw [lookup_updateWidget, hw, Option.map_some'] at hw0
    have h0 : w0.Flags = w.Flags &&& (0xFF ^^^ 1) := by
      rw [← Option.some_inj.mp hw0]
      simp [edittextFlagsAfter, GUI_EDITTEXT_FLAG_MULTILINE]
    rw [h0]
    exact ⟨and_mask_testBit_zero w.Flags, lt_of_le_of_lt Nat.and_le_left hf,
      fun i hi => and_mask_testBit_ne w.Flags i hf hi⟩

/-- Witness for C9: on the demo widget (`Flags = 0`), enabling multiline
yields flags with bit 0 set, below 256, and with bit 3 unchanged. -/
theorem edittext_multiline_flag_bit_witness :
    GUI_EDITTEXT_FLAG_MULTILINE = 2 ^ 0 ∧
    ({ wDemo with Flags := 1 }.Flags.testBit 0 = true ∧
      { wDemo with Flags := 1 }.Flags < 256 ∧
      { wDemo with Flags := 1 }.Flags.testBit 3 = wDemo.Flags.testBit 3) :=
  have hmain := edittext_multiline_flag_bit sDemo 1 wDemo (by decide)
    (by decide) (by decide)
  have h1 := hmain.2.1 { wDemo with Flags := 1 } (by decide)
  ⟨hmain.1, h1.1, h1.2.1, h1.2.2 3 (by decide)⟩

/-- C10: the edit-text alignment enumerators are numerically identical to the
toolkit-wide alignment enumerators, so any toolkit-wide alignment value is
accepted unchanged by `SetVAlign` and `SetHAlign` on a valid handle. -/
theorem edittext_align_matches_toolkit :
    GUI_EDITTEXT_VALIGN_TOP = GUI_VALIGN_TOP ∧
    GUI_EDITTEXT_VALIGN_CENTER = GUI_VALIGN_CENTER ∧
    GUI_EDITTEXT_VALIGN_BOTTOM = GUI_VALIGN_BOTTOM ∧
    GUI_EDITTEXT_HALIGN_LEFT = GUI_HALIGN_LEFT ∧
    GUI_EDITTEXT_HALIGN_CENTER = GUI_HALIGN_CENTER ∧
    GUI_EDITTEXT_HALIGN_RIGHT = GUI_HALIGN_RIGHT ∧
    (∀ (s : GUI_State) (h : Nat), validHandle s h = true →
      (GUI_EDITTEXT_SetVAlign s h GUI_VALIGN_TOP).1 = 1 ∧
      (GUI_EDITTEXT_SetVAlign s h GUI_VALIGN_CENTER).1 = 1 ∧
      (GUI_EDITTEXT_SetVAlign s h GUI_VALIGN_BOTTOM).1 = 1 ∧
      (GUI_EDITTEXT_SetHAlign s h GUI_HALIGN_LEFT).1 = 1 ∧
      (GUI_EDITTEXT_SetHAlign s h GUI_HALIGN_CENTER).1 = 1 ∧
      (GUI_EDITTEXT_SetHAlign s h GUI_HALIGN_RIGHT).1 = 1) := by
  refine ⟨rfl, rfl, rfl, rfl, rfl, rfl, ?_⟩
  intro s h hv
  refine ⟨?_, ?_, ?_, ?_, ?_, ?_⟩
  · rw [GUI_EDITTEXT_SetVAlign,
      if_pos (by rw [Bool.and_eq_true]; exact ⟨hv, by decide⟩)]
  · rw [GUI_EDITTEXT_SetVAlign,
      if_pos (by rw [Bool.and_eq_true]; exact ⟨hv, by decide⟩)]
  · rw [GUI_EDITTEXT_SetVAlign,
      if_pos (by rw [Bool.and_eq_true]; exact ⟨hv, by decide⟩)]
  · rw [GUI_EDITTEXT_SetHAlign,
      if_pos (by rw [Bool.and_eq_true]; exact ⟨hv, by decide⟩)]
  · rw [GUI_EDITTEXT_SetHAlign,
      if_pos (by rw [Bool.and_eq_true]; exact ⟨hv, by decide⟩)]
  · rw [GUI_EDITTEXT_SetHAlign,
      if_pos (by rw [Bool.and_eq_true]; exact ⟨hv, by decide⟩)]

/-- Witness for C10: on the demo state, every toolkit-wide alignment value is
accepted by the edit-text alignment setters on handle 1. -/
theorem edittext_align_matches_toolkit_witness :
    (GUI_EDITTEXT_SetVAlign sDemo 1 GUI_VALIGN_TOP).1 = 1 ∧
    (GUI_EDITTEXT_SetVAlign sDemo 1 GUI_VALIGN_CENTER).1 = 1 ∧
    (GUI_EDITTEXT_SetVAlign sDemo 1 GUI_VALIGN_BOTTOM).1 = 1 ∧
    (GUI_EDITTEXT_SetHAlign sDemo 1 GUI_HALIGN_LEFT).1 = 1 ∧
    (GUI_EDITTEXT_SetHAlign sDemo 1 GUI_HALIGN_CENTER).1 = 1 ∧
    (GUI_EDITTEXT_SetHAlign sDemo 1 GUI_HALIGN_RIGHT).1 = 1 :=
  edittext_align_matches_toolkit.2.2.2.2.2.2 sDemo 1 (by decide)
